import Mathlib

/-!
Shallow embedding of the virt-manager install orchestrator
(`virtinst/installer.py`) and the URL-detection retry harness
(`tests/test_urls.py`), together with proofs of the behavioural
claims about them.

External collaborators (the libvirt connection, the Guest/device XML
data model, the tree-media preparer) are modelled as explicit
parameters: fallible external calls are `Except String`-valued
function arguments, so that every theorem quantifies over all
possible behaviours of the collaborator.
-/

/-- Python truthiness of an optional string: `None` and the empty
string are falsy, every other string is truthy. -/
def truthy (o : Option String) : Bool :=
  match o with
  | none => false
  | some s => s ≠ ""

/-- Python `a or b` for an optional string `a` and a string `b`:
yields `a` when truthy, otherwise `b`. -/
def pyOr (a : Option String) (b : String) : String :=
  match a with
  | none => b
  | some s => if s = "" then b else s

/-- Substring test on the underlying character lists, mirroring
Python `needle in hay`. -/
def containsSub (hay needle : String) : Bool :=
  (List.range (hay.toList.length + 1)).any
    (fun i => needle.toList.isPrefixOf (hay.toList.drop i))

/-! ## Device and guest data model

Only the parts of the external Guest/device XML data model that
`installer.py` reads or writes are carried: disk devices with their
device type, path, per-device boot order and storage-creation flag,
and the os boot-configuration block. -/

/-- Value of `DeviceDisk.DEVICE_DISK`. -/
def DEVICE_DISK : String := "disk"

/-- Value of `DeviceDisk.DEVICE_CDROM`. -/
def DEVICE_CDROM : String := "cdrom"

/-- Value of `DeviceDisk.DEVICE_FLOPPY`. -/
def DEVICE_FLOPPY : String := "floppy"

/-- Value of `DomainOs.BOOT_DEVICE_HARDDISK`. -/
def BOOT_DEVICE_HARDDISK : String := "hd"

/-- Value of `DomainOs.BOOT_DEVICE_CDROM`. -/
def BOOT_DEVICE_CDROM : String := "cdrom"

/-- Value of `DomainOs.BOOT_DEVICE_FLOPPY`. -/
def BOOT_DEVICE_FLOPPY : String := "fd"

/-- A disk device of the guest (`DeviceDisk`). `boot_order` is the
device-level `d.boot.order` value, `none` when unset. -/
structure DeviceDisk where
  device : String
  path : Option String
  boot_order : Option Nat
  storage_was_created : Bool
deriving Repr, DecidableEq

/-- `DeviceDisk.is_cdrom`. -/
def DeviceDisk.is_cdrom (d : DeviceDisk) : Bool :=
  d.device = DEVICE_CDROM

/-- The guest os block fields that the installer touches
(`guest.os.*` plus `guest.on_reboot`). -/
structure GuestOs where
  bootorder : List String
  kernel : Option String
  initrd : Option String
  kernel_args : Option String
  is_container : Bool
deriving Repr, DecidableEq

/-- The slice of the external Guest object the installer reads and
writes: the os boot block, the reboot policy, the disk device list
(`guest.devices.disk`; disks are the only devices the installer
inspects), and the `guest.osinfo.is_windows()` predicate. -/
structure Guest where
  os : GuestOs
  on_reboot : Option String
  disks : List DeviceDisk
  osinfo_is_windows : Bool
deriving Repr, DecidableEq

/-- The tree-media helper handle (`InstallerTreeMedia`), reduced to
the two values the installer reads from it directly. -/
structure TreeMedia where
  location : String
  cdrom_path : Option String
deriving Repr, DecidableEq

/-- Installer state, the fields set up by `Installer.__init__`. -/
structure Installer where
  livecd : Bool
  extra_args : List String
  autostart : Bool
  install_bootdev : Option String
  install_kernel : Option String
  install_initrd : Option String
  install_cdrom_device : Option DeviceDisk
  defaults_are_set : Bool
  cdrom : Option String
  treemedia : Option TreeMedia
deriving Repr, DecidableEq

/-! ## Constructor (`Installer.__init__`)

The two external media-access hooks reached from the constructor,
`InstallerTreeMedia.validate_path` and the `InstallerTreeMedia`
constructor, are passed as function arguments; the validation
theorems quantify over them, which is exactly the statement that the
validation error is raised before any media access can happen. -/

/-- Error message for kernel/initrd supplied without a location. -/
def errNoLocation : String :=
  "location kernel/initrd may only be specified with a location URL/path"

/-- Error message for kernel without initrd or vice versa. -/
def errNotPair : String :=
  "location kernel/initrd must be be specified as a pair"

/-- The media-access tail of `Installer.__init__`, reached only
after the pairing validation passed: cdrom path validation and
tree-media construction through the external hooks. -/
def Installer.init_media
    (validate_path : String → Except String String)
    (mkTreeMedia : String → Option String → Option String → Except String TreeMedia)
    (st : Installer) (cdrom location location_kernel location_initrd : Option String) :
    Except String Installer :=
  match (if truthy cdrom then (validate_path (cdrom.getD "")).map some
         else .ok none) with
  | .error e => .error e
  | .ok c =>
    let st := match c with
      | some cc => { st with cdrom := some cc, install_bootdev := some "cdrom" }
      | none => st
    if truthy location then
      match mkTreeMedia (location.getD "") location_kernel location_initrd with
      | .error e => .error e
      | .ok tm => .ok { st with treemedia := some tm }
    else .ok st

/-- `Installer.__init__`: field initialisation and the eager
kernel/initrd pairing validation, raised before the media-access
tail runs. -/
def Installer.init
    (validate_path : String → Except String String)
    (mkTreeMedia : String → Option String → Option String → Except String TreeMedia)
    (cdrom location install_bootdev location_kernel location_initrd : Option String) :
    Except String Installer :=
  let st : Installer :=
    { livecd := false
      extra_args := []
      autostart := false
      install_bootdev := install_bootdev
      install_kernel := none
      install_initrd := none
      install_cdrom_device := none
      defaults_are_set := false
      cdrom := none
      treemedia := none }
  if truthy location_kernel ∨ truthy location_initrd then
    if ¬ truthy location then .error errNoLocation
    else if ¬ (truthy location_kernel ∧ truthy location_initrd) then .error errNotPair
    else Installer.init_media validate_path mkTreeMedia st
        cdrom location location_kernel location_initrd
  else Installer.init_media validate_path mkTreeMedia st
      cdrom location location_kernel location_initrd

/-! ## Private helpers -/

/-- `Installer._cdrom_path`. -/
def Installer.cdrom_path (st : Installer) : Option String :=
  match st.treemedia with
  | some tm => tm.cdrom_path
  | none => st.cdrom

/-- The loop body of `Installer._add_install_cdrom_device`: insert
the install CDROM device before the first existing CDROM disk, or
append it at the end when no CDROM disk exists. -/
def insertInstallCdrom (dev : DeviceDisk) : List DeviceDisk → List DeviceDisk
  | [] => [dev]
  | d :: ds => if d.is_cdrom then dev :: d :: ds else d :: insertInstallCdrom dev ds

/-- The device value built by `Installer._add_install_cdrom_device`:
a cdrom disk carrying the install media path. The external
`DeviceDisk` constructor/`validate()` call checks the path before
any guest mutation. -/
def Installer.install_cdrom_dev_of (st : Installer) : DeviceDisk :=
  { device := DEVICE_CDROM
    path := st.cdrom_path
    boot_order := none
    storage_was_created := false }

/-- `Installer._add_install_cdrom_device`, continued: the one-shot
device creation and its insertion into the guest device list. -/
def Installer.add_install_cdrom_device (st : Installer) (guest : Guest) :
    Installer × Guest :=
  if st.install_cdrom_device.isSome then (st, guest)
  else if ¬ truthy st.cdrom_path then (st, guest)
  else
    let dev := st.install_cdrom_dev_of
    ({ st with install_cdrom_device := some dev },
     { guest with disks := insertInstallCdrom dev guest.disks })

/-- `Installer._remove_install_cdrom_media`. In the source the
install cdrom device object is shared between the installer and the
guest device list; the aliasing is modelled by rewriting any guest
disk equal to the stored device. -/
def Installer.remove_install_cdrom_media (st : Installer) (guest : Guest) :
    Installer × Guest :=
  match st.install_cdrom_device with
  | none => (st, guest)
  | some dev =>
    if st.livecd then (st, guest)
    else if guest.osinfo_is_windows then (st, guest)
    else
      let dev2 : DeviceDisk := { dev with path := none }
      ({ st with install_cdrom_device := some dev2 },
       { guest with disks := guest.disks.map (fun d => if d = dev then dev2 else d) })

/-- `Installer._build_boot_order`: the requested device first, then
`hd` appended once the scan meets a DISK-type device, unless already
present. -/
def Installer.build_boot_order (guest : Guest) (bootdev : String) : List String :=
  let bootorder := [bootdev]
  match guest.disks.find? (fun d => d.device = DEVICE_DISK) with
  | some _ => if BOOT_DEVICE_HARDDISK ∈ bootorder then bootorder
              else bootorder ++ [BOOT_DEVICE_HARDDISK]
  | none => bootorder

/-- `Installer._can_set_guest_bootorder`. The source scans
`guest.devices.get_all()` for device-level boot orders; disks are
the only devices carried by the model. -/
def Installer.can_set_guest_bootorder (guest : Guest) : Bool :=
  ¬ guest.os.is_container ∧ ¬ truthy guest.os.kernel ∧
    guest.disks.all (fun d => d.boot_order.getD 0 = 0)

/-- `Installer._alter_bootconfig`: force destroy-on-reboot, install
kernel/initrd/args, and the computed or cleared boot order. -/
def Installer.alter_bootconfig (st : Installer) (guest : Guest) : Guest :=
  let g := { guest with on_reboot := some "destroy" }
  let g := if truthy st.install_kernel then
      { g with os := { g.os with kernel := st.install_kernel } } else g
  let g := if truthy st.install_initrd then
      { g with os := { g.os with initrd := st.install_initrd } } else g
  let g := if st.extra_args ≠ [] then
      { g with os := { g.os with kernel_args := some (String.intercalate " " st.extra_args) } }
    else g
  if truthy st.install_bootdev ∧ Installer.can_set_guest_bootorder g then
    { g with os := { g.os with bootorder := Installer.build_boot_order g (st.install_bootdev.getD "") } }
  else
    { g with os := { g.os with bootorder := [] } }

/-- `Installer._get_postinstall_bootdev`. -/
def Installer.get_postinstall_bootdev (st : Installer) (guest : Guest) : String :=
  if truthy st.cdrom ∧ st.livecd then BOOT_DEVICE_CDROM
  else if truthy st.install_bootdev then
    if guest.disks.any (fun d => d.device = DEVICE_DISK) then BOOT_DEVICE_HARDDISK
    else st.install_bootdev.getD ""
  else
    match guest.disks.head? with
    | some d =>
      if d.device = DEVICE_DISK then BOOT_DEVICE_HARDDISK
      else if d.device = DEVICE_CDROM then BOOT_DEVICE_CDROM
      else if d.device = DEVICE_FLOPPY then BOOT_DEVICE_FLOPPY
      else BOOT_DEVICE_HARDDISK
    | none => BOOT_DEVICE_HARDDISK

/-- `Installer.has_install_phase`. -/
def Installer.has_install_phase (st : Installer) : Bool :=
  if truthy st.cdrom ∧ st.livecd then false
  else truthy st.cdrom ∨ truthy st.install_bootdev ∨ st.treemedia.isSome

/-- `Installer.set_install_defaults`, guarded by the one-shot
`_defaults_are_set` flag. `set_defaults_ext` is the external
`guest.set_defaults(None)` default-population hook. -/
def Installer.set_install_defaults (set_defaults_ext : Guest → Guest)
    (st : Installer) (guest : Guest) : Installer × Guest :=
  if st.defaults_are_set then (st, guest)
  else
    let (st, g) := st.add_install_cdrom_device guest
    let g :=
      if g.os.bootorder = [] ∧ Installer.can_set_guest_bootorder g then
        let bootdev := st.get_postinstall_bootdev g
        { g with os := { g.os with bootorder := Installer.build_boot_order g bootdev } }
      else g
    let g := set_defaults_ext g
    ({ st with defaults_are_set := true }, g)

/-! ## Install XML build (`_prepare_get_install_xml` /
`_finish_get_install_xml` / `_get_install_xml` / `_build_xml`)

XML rendering (`guest.get_xml()`) is an external collaborator call
and is passed in as a fallible `render` function. -/

/-- The snapshot tuple taken by `Installer._prepare_get_install_xml`:
the five fields overwritten for the install boot. -/
structure OsSnapshot where
  bootorder : List String
  kernel : Option String
  initrd : Option String
  kernel_args : Option String
  on_reboot : Option String
deriving Repr, DecidableEq

/-- `Installer._prepare_get_install_xml`. -/
def Installer.prepare_get_install_xml (guest : Guest) : OsSnapshot :=
  { bootorder := guest.os.bootorder
    kernel := guest.os.kernel
    initrd := guest.os.initrd
    kernel_args := guest.os.kernel_args
    on_reboot := guest.on_reboot }

/-- `Installer._finish_get_install_xml`: write the snapshot back. -/
def Installer.finish_get_install_xml (guest : Guest) (data : OsSnapshot) : Guest :=
  { guest with
    os := { guest.os with
            bootorder := data.bootorder
            kernel := data.kernel
            initrd := data.initrd
            kernel_args := data.kernel_args }
    on_reboot := data.on_reboot }

/-- `Installer._get_install_xml`: snapshot, mutate, render, and on
every exit path (render success or failure) remove the install media
and restore the snapshot, as the `try/finally` block does. -/
def Installer.get_install_xml (st : Installer) (guest : Guest)
    (render : Guest → Except String String) :
    Except String String × Installer × Guest :=
  let data := Installer.prepare_get_install_xml guest
  let g := st.alter_bootconfig guest
  let ret := render g
  let sg := st.remove_install_cdrom_media g
  (ret, sg.1, Installer.finish_get_install_xml sg.2 data)

/-- `Installer._build_xml`: install-phase XML when there is an
install phase, then the final XML. -/
def Installer.build_xml (st : Installer) (guest : Guest)
    (render : Guest → Except String String) :
    Except String (Option String × String) × Installer × Guest :=
  if st.has_install_phase then
    let gi := st.get_install_xml guest render
    match gi.1 with
    | .error e => (.error e, gi.2.1, gi.2.2)
    | .ok ixml =>
      match render gi.2.2 with
      | .error e => (.error e, gi.2.1, gi.2.2)
      | .ok fxml => (.ok (some ixml, fxml), gi.2.1, gi.2.2)
  else
    match render guest with
    | .error e => (.error e, st, guest)
    | .ok fxml => (.ok (none, fxml), st, guest)

/-! ## Domain creation (`_manual_transient_create`, `_create_guest`,
`_flag_autostart`) -/

/-- The libvirt connection and domain operations `installer.py`
invokes, as fallible external functions over an abstract domain
handle type. -/
structure ConnOps (δ : Type) where
  defineXML : String → Except String δ
  createXML : String → Except String δ
  domain_create : δ → Except String Unit
  domain_undefine : δ → Except String Unit

/-- Trace entries for the vz define-then-start fallback. -/
inductive VzAction where
  | defineInstall
  | bootDomain
  | undefineDomain (succeeded : Bool)
  | defineFinal
deriving Repr, DecidableEq

/-- `Installer._manual_transient_create`: define, boot when needed,
undefine (swallowing its own failure) when the boot fails, redefine
with the final XML when it differs from the install XML. The trace
records which external operations were attempted. -/
def Installer.manual_transient_create (ops : ConnOps δ)
    (install_xml : Option String) (final_xml : String) (needs_boot : Bool) :
    Except String δ × List VzAction :=
  match ops.defineXML (pyOr install_xml final_xml) with
  | .error e => (.error e, [.defineInstall])
  | .ok domain =>
    if ¬ needs_boot then (.ok domain, [.defineInstall])
    else
      match ops.domain_create domain with
      | .error e =>
        let u := ops.domain_undefine domain
        (.error e, [.defineInstall, .bootDomain, .undefineDomain u.isOk])
      | .ok _ =>
        if truthy install_xml ∧ install_xml.getD "" ≠ final_xml then
          match ops.defineXML final_xml with
          | .error e => (.error e, [.defineInstall, .bootDomain, .defineFinal])
          | .ok d2 => (.ok d2, [.defineInstall, .bootDomain, .defineFinal])
        else (.ok domain, [.defineInstall, .bootDomain])

/-- `Installer._create_guest` (the logging of the fetched XML is
dropped: its own failure is caught and only logged). -/
def Installer.create_guest (ops : ConnOps δ) (st : Installer)
    (guest_type_vz : Bool) (install_xml : Option String) (final_xml : String)
    (doboot transient : Bool) : Except String δ :=
  let needs_boot := doboot ∨ st.has_install_phase
  if guest_type_vz then
    if transient then
      .error "Domain type vz does not support transient installs."
    else
      (Installer.manual_transient_create ops install_xml final_xml needs_boot).1
  else
    match (if transient ∨ needs_boot then
             (ops.createXML (pyOr install_xml final_xml)).map some
           else .ok none) with
    | .error e => .error e
    | .ok created =>
      if ¬ transient then ops.defineXML final_xml
      else
        match created with
        | some d => .ok d
        | none => .error "unreachable: transient create produced no domain"

/-- `Installer._flag_autostart`: the external
`domain.setAutostart(True)` result is tolerated when the error is
classified by `util.is_error_nosupport` (the `is_nosupport`
predicate), otherwise re-raised. -/
def Installer.flag_autostart (is_nosupport : String → Bool)
    (set_autostart : Except String Unit) : Except String Unit :=
  match set_autostart with
  | .ok _ => .ok ()
  | .error e => if is_nosupport e then .ok () else .error e

/-! ## start_install -/

/-- Per-disk storage build (`dev.build_storage(meter)`) over the
guest disk list, stopping at the first failure; disks already built
keep their mutated state, as the device objects of the caller do. -/
def buildStorageAll (build : DeviceDisk → Except String DeviceDisk) :
    List DeviceDisk → Except String Unit × List DeviceDisk
  | [] => (.ok (), [])
  | d :: ds =>
    match build d with
    | .error e => (.error e, d :: ds)
    | .ok d2 =>
      let (r, ds2) := buildStorageAll build ds
      (r, d2 :: ds2)

/-- Result of `start_install`: the early XML return, the dry-run
early return, or the created domain handle. -/
inductive StartResult (δ : Type) where
  | xmlPair (install_xml : Option String) (final_xml : String)
  | dryRun
  | domain (d : δ)
deriving Repr, DecidableEq

/-- Everything `start_install` leaves behind: its return value or
exception, the final installer and guest state, whether a domain was
created, and whether the autostart setter was invoked. -/
structure StartOut (δ : Type) where
  result : Except String (StartResult δ)
  installer : Installer
  guest : Guest
  domain_created : Option δ
  autostart_attempted : Bool
deriving Repr

/-- The external collaborator calls `start_install` makes besides
the connection: name validation, the guest default-population hook,
the tree-media prepare result (kernel, initrd, extra kernel
argument), the per-disk storage builder, XML rendering, the
autostart setter with its error classifier, and the
`VIRTINST_INITRD_TEST` environment flag. The tree-media `cleanup`
call in the `finally` block releases scratch files only and does not
touch the guest configuration. -/
structure StartEnv (δ : Type) where
  validate_name : Except String Unit
  set_defaults_ext : Guest → Guest
  prepare_res : Except String (Option String × Option String × Option String)
  initrd_test_env : Bool
  build_storage : DeviceDisk → Except String DeviceDisk
  render : Guest → Except String String
  conn : ConnOps δ
  set_autostart : δ → Except String Unit
  is_nosupport : String → Bool

/-- `Installer._prepare`: record kernel/initrd from the tree media
and append the extra kernel argument unless the test environment
flag is set. Only invoked when tree media is present. -/
def Installer.prepare_apply (st : Installer)
    (k i a : Option String) (initrd_test_env : Bool) : Installer :=
  let st := { st with install_kernel := k, install_initrd := i }
  if truthy a ∧ ¬ initrd_test_env then
    { st with extra_args := st.extra_args ++ [a.getD ""] }
  else st

/-- The tail of `Installer.start_install` after the XML pair has
been built: the return_xml and dry early returns, domain creation,
and the optional autostart flagging. -/
def Installer.finish_install (env : StartEnv δ) (st : Installer) (g : Guest)
    (install_xml : Option String) (final_xml : String)
    (dry return_xml doboot transient guest_type_vz : Bool) : StartOut δ :=
  if return_xml then ⟨.ok (.xmlPair install_xml final_xml), st, g, none, false⟩
  else if dry then ⟨.ok .dryRun, st, g, none, false⟩
  else
    match st.create_guest env.conn guest_type_vz install_xml final_xml
        doboot transient with
    | .error e => ⟨.error e, st, g, none, false⟩
    | .ok d =>
      if st.autostart then
        match Installer.flag_autostart env.is_nosupport (env.set_autostart d) with
        | .error e => ⟨.error e, st, g, some d, true⟩
        | .ok _ => ⟨.ok (.domain d), st, g, some d, true⟩
      else ⟨.ok (.domain d), st, g, some d, false⟩

/-- The XML-building stage of `start_install` followed by its final
stage: build the install/final XML pair, propagating a rendering
failure, otherwise hand over to `finish_install`. -/
def Installer.xml_phase (st : Installer) (env : StartEnv δ) (g : Guest)
    (dry return_xml doboot transient guest_type_vz : Bool) : StartOut δ :=
  let bx := st.build_xml g env.render
  match bx.1 with
  | .error e => ⟨.error e, bx.2.1, bx.2.2, none, false⟩
  | .ok xmls =>
    Installer.finish_install env bx.2.1 bx.2.2 xmls.1 xmls.2
      dry return_xml doboot transient guest_type_vz

/-- `Installer.start_install`: validate, set defaults, prepare,
build storage, build the XML, then return early (return_xml / dry)
or create the domain and optionally flag autostart. Exceptions from
any stage propagate as `.error`; the guest state at that moment is
returned alongside, which is what the in-memory guest object holds
after the exception escapes. -/
def Installer.start_install (env : StartEnv δ) (st : Installer) (guest : Guest)
    (dry return_xml doboot transient guest_type_vz : Bool) : StartOut δ :=
  match env.validate_name with
  | .error e => ⟨.error e, st, guest, none, false⟩
  | .ok _ =>
    let (st, g) := st.set_install_defaults env.set_defaults_ext guest
    match (if st.treemedia.isSome then env.prepare_res.map some else .ok none) with
    | .error e => ⟨.error e, st, g, none, false⟩
    | .ok pr =>
      let st := match pr with
        | none => st
        | some (k, i, a) => st.prepare_apply k i a env.initrd_test_env
      let (storage_r, disks2) :=
        if dry then (.ok (), g.disks) else buildStorageAll env.build_storage g.disks
      let g := { g with disks := disks2 }
      match storage_r with
      | .error e => ⟨.error e, st, g, none, false⟩
      | .ok _ =>
        st.xml_phase env g dry return_xml doboot transient guest_type_vz

/-! ## Created-disk rollback (`get_created_disks`,
`cleanup_created_disks`) -/

/-- `Installer.get_created_disks`. -/
def Installer.get_created_disks (guest : Guest) : List DeviceDisk :=
  guest.disks.filter (fun d => d.storage_was_created)

/-- One processed disk of the cleanup pass: removal succeeded, or
the failure was logged and processing moved on. -/
inductive CleanupStep where
  | removed (d : DeviceDisk)
  | failedLogged (d : DeviceDisk) (e : String)
deriving Repr, DecidableEq

/-- The disk a cleanup step was about. -/
def CleanupStep.disk : CleanupStep → DeviceDisk
  | .removed d => d
  | .failedLogged d _ => d

/-- `Installer.cleanup_created_disks`: every created disk is
processed in order through the external deletion call
(`vol_object.delete()` or `os.unlink`); a failure is caught, logged
and processing continues with the next disk; nothing is ever
raised. -/
def Installer.cleanup_created_disks (delete_disk : DeviceDisk → Except String Unit)
    (guest : Guest) : List CleanupStep :=
  (Installer.get_created_disks guest).map (fun d =>
    match delete_disk d with
    | .ok _ => .removed d
    | .error e => .failedLogged d e)

/-! ## URL-detection retry harness (`tests/test_urls.py`)

`_storeForDistro` wraps `urldetect.getDistroStore` in a bounded
retry loop for transient proxy errors. The attempt itself is an
external call, passed as a function of the attempt number. -/

/-- Outcome of a `_storeForDistro` run: the value or exception,
the number of `getDistroStore` attempts made, and the total
milliseconds slept (one `time.sleep(.5)` per caught proxy error). -/
structure RetryOut (σ : Type) where
  result : Except String σ
  attempts : Nat
  slept_ms : Nat
deriving Repr

/-- Proxy-error classification of `_storeForDistro`:
`"502" in str(e)`. -/
def is502 (e : String) : Bool := containsSub e "502"

/-- The `for ignore in range(0, 10)` loop of `_storeForDistro`:
`fuel` iterations remain, `made` attempts and `slept` ms so far.
When the loop exhausts, the bare `raise` at function level fires. -/
def storeForDistroAux (attempt : Nat → Except String σ) :
    Nat → Nat → Nat → RetryOut σ
  | 0, made, slept =>
    ⟨.error "RuntimeError: No active exception to re-raise", made, slept⟩
  | fuel + 1, made, slept =>
    match attempt made with
    | .ok s => ⟨.ok s, made + 1, slept⟩
    | .error e =>
      if is502 e then storeForDistroAux attempt fuel (made + 1) (slept + 500)
      else ⟨.error e, made + 1, slept⟩

/-- `_storeForDistro`: up to 10 attempts. -/
def storeForDistro (attempt : Nat → Except String σ) : RetryOut σ :=
  storeForDistroAux attempt 10 0 0

/-- Modelled from the spec: the diagnostic message of the
`DetectionError` raised by the detection engine (not under src/)
when no distro family matches a location; per the spec it names the
location and must suggest the most common cause, a mistyped
location, and the conformance test asserts the literal substring
"maybe you mistyped". -/
def detection_error_message (location : String) : String :=
  "Could not find an installable distribution at " ++ location ++
    ". The location must be the root directory of an install tree; maybe you mistyped?"

/-- Modelled from the spec: `urldetect.getDistroStore` (the
detection engine, not under src/) scans the distro families for the
fetched location; when none matches — in particular when the
location is unreachable or non-existent — it fails with a
`DetectionError` whose message names the location and suggests the
most common cause, a mistyped location. `matched` is the descriptor
of the first matching family, when one matched. -/
def getDistroStore (matched : Option σ) (location : String) : Except String σ :=
  match matched with
  | some s => .ok s
  | none => .error (detection_error_message location)

/-! ## Concrete fixtures for witnesses -/

/-- A guest os block with nothing configured. -/
def sampleOs : GuestOs :=
  { bootorder := [], kernel := none, initrd := none,
    kernel_args := none, is_container := false }

/-- A plain hard-disk device. -/
def sampleHardDisk : DeviceDisk :=
  { device := DEVICE_DISK, path := some "/var/lib/libvirt/images/disk.img",
    boot_order := none, storage_was_created := false }

/-- A pre-existing CDROM disk device. -/
def sampleCdromDisk : DeviceDisk :=
  { device := DEVICE_CDROM, path := some "/tmp/old.iso",
    boot_order := none, storage_was_created := false }

/-- A guest with one hard disk and no boot configuration. -/
def sampleGuestOneDisk : Guest :=
  { os := sampleOs, on_reboot := none, disks := [sampleHardDisk],
    osinfo_is_windows := false }

/-- A guest with no disks and no boot configuration. -/
def sampleGuestNoDisks : Guest :=
  { os := sampleOs, on_reboot := none, disks := [],
    osinfo_is_windows := false }

/-- A guest whose bootorder, kernel, initrd, kernel args and reboot
policy were all configured by the caller before the install. -/
def presetGuest : Guest :=
  { os := { bootorder := ["network"], kernel := some "/boot/vmlinuz",
            initrd := some "/boot/initrd.img",
            kernel_args := some "console=ttyS0", is_container := false }
    on_reboot := some "restart"
    disks := [sampleHardDisk]
    osinfo_is_windows := false }

/-- A connection whose operations all succeed. -/
def sampleConn : ConnOps Nat :=
  { defineXML := fun _ => .ok 1
    createXML := fun _ => .ok 2
    domain_create := fun _ => .ok ()
    domain_undefine := fun _ => .ok () }

/-- A vz-style connection where the initial boot fails and the
best-effort undefine fails as well. -/
def vzFailConn : ConnOps Nat :=
  { defineXML := fun _ => .ok 1
    createXML := fun _ => .ok 2
    domain_create := fun _ => .error "internal error: failed to start domain"
    domain_undefine := fun _ => .error "undefine failed as well" }

/-- A fully successful external environment for `start_install`. -/
def sampleEnv : StartEnv Nat :=
  { validate_name := .ok ()
    set_defaults_ext := id
    prepare_res := .ok (some "/tmp/virtinst-kernel", some "/tmp/virtinst-initrd", none)
    initrd_test_env := false
    build_storage := fun d => .ok { d with storage_was_created := true }
    render := fun _ => .ok "<domain/>"
    conn := sampleConn
    set_autostart := fun _ => .ok ()
    is_nosupport := fun _ => false }

/-- A detection attempt that hits a proxy gateway error once and
then succeeds. -/
def proxyThenOkAttempt : Nat → Except String Nat :=
  fun n => if n = 0 then .error "HTTP Error 502: Bad Gateway" else .ok 7

/-- The unreachable URL used by `URLTests.test001BadURL`. -/
def badURL : String := "http://aksdkakskdfa-idontexist.com/foo/tree"

/-- An installer for a cdrom-backed install, before its install
CDROM device has been created. -/
def cdromInstaller : Installer :=
  { livecd := false, extra_args := [], autostart := false
    install_bootdev := some "cdrom", install_kernel := none
    install_initrd := none, install_cdrom_device := none
    defaults_are_set := false, cdrom := some "/tmp/install.iso"
    treemedia := none }

/-- A guest that already carries a CDROM disk after a hard disk. -/
def guestWithCdrom : Guest :=
  { os := sampleOs, on_reboot := none
    disks := [sampleHardDisk, sampleCdromDisk]
    osinfo_is_windows := false }

/-- The install CDROM device `add_install_cdrom_device` builds for
`cdromInstaller`. -/
def installIsoDev : DeviceDisk :=
  { device := DEVICE_CDROM, path := some "/tmp/install.iso",
    boot_order := none, storage_was_created := false }

/-- A disk whose storage this install created. -/
def createdDiskA : DeviceDisk :=
  { device := DEVICE_DISK, path := some "/pool/new-a.img",
    boot_order := none, storage_was_created := true }

/-- A second disk whose storage this install created. -/
def createdDiskB : DeviceDisk :=
  { device := DEVICE_DISK, path := some "/pool/new-b.img",
    boot_order := none, storage_was_created := true }

/-- A guest holding one pre-existing disk and two created disks. -/
def mixedGuest : Guest :=
  { os := sampleOs, on_reboot := none
    disks := [sampleHardDisk, createdDiskA, createdDiskB]
    osinfo_is_windows := false }

/-- A deletion hook that fails on the first created disk. -/
def failDelete : DeviceDisk → Except String Unit :=
  fun d => if d.path = some "/pool/new-a.img" then .error "Permission denied" else .ok ()

/-- A path-validation hook that accepts every path. -/
def okValidatePath : String → Except String String := fun s => .ok s

/-- A tree-media constructor hook that always succeeds. -/
def okMkTreeMedia : String → Option String → Option String → Except String TreeMedia :=
  fun l _ _ => .ok { location := l, cdrom_path := none }

/-- One `set_install_defaults` call as a step on the installer/guest
pair, for iterating it. -/
def sidStep (f : Guest → Guest) (p : Installer × Guest) : Installer × Guest :=
  Installer.set_install_defaults f p.1 p.2


/-! # Helper lemmas -/

/-- Mapping each cleanup step back to its disk recovers the disk
list the steps were built from. -/
theorem cleanup_map_disk (delete_disk : DeviceDisk → Except String Unit) :
    ∀ l : List DeviceDisk,
    (l.map (fun d => match delete_disk d with
      | .ok _ => CleanupStep.removed d
      | .error e => CleanupStep.failedLogged d e)).map CleanupStep.disk = l := by
  intro l
  induction l with
  | nil => rfl
  | cons d ds ih =>
    cases hd : delete_disk d <;> simp [CleanupStep.disk, ih, hd]

/-- `set_install_defaults` always leaves the one-shot flag set. -/
theorem set_install_defaults_sets_flag (f : Guest → Guest) (st : Installer) (g : Guest) :
    (Installer.set_install_defaults f st g).1.defaults_are_set = true := by
  unfold Installer.set_install_defaults
  rcases h : st.add_install_cdrom_device g with ⟨st1, g1⟩
  by_cases hflag : st.defaults_are_set = true
  · simp [hflag]
  · simp at hflag
    simp [hflag, h]

/-- With the one-shot flag set, `set_install_defaults` is the
identity. -/
theorem set_install_defaults_flag_done (f : Guest → Guest) (st : Installer) (g : Guest)
    (h : st.defaults_are_set = true) :
    Installer.set_install_defaults f st g = (st, g) := by
  unfold Installer.set_install_defaults
  simp [h]

/-- One completed `set_install_defaults` call is a fixed point of
further calls. -/
theorem sidStep_fixpoint (f : Guest → Guest) (p : Installer × Guest) :
    sidStep f (sidStep f p) = sidStep f p := by
  unfold sidStep
  exact set_install_defaults_flag_done f _ _ (set_install_defaults_sets_flag f p.1 p.2)

/-- In the final stage of `start_install`, the autostart setter is
only reached once a domain was created. -/
theorem finish_install_attempted_created (env : StartEnv δ) (st : Installer)
    (g : Guest) (ix : Option String) (fx : String) (dry rx db tr vz : Bool)
    (h : (Installer.finish_install env st g ix fx dry rx db tr vz).autostart_attempted
      = true) :
    (Installer.finish_install env st g ix fx dry rx db tr vz).domain_created.isSome
      = true := by
  unfold Installer.finish_install at h ⊢
  repeat' split at h
  all_goals simp_all

/-- In the XML-building stage of `start_install`, the autostart
setter is only reached once a domain was created. -/
theorem xml_phase_attempted_created (st : Installer) (env : StartEnv δ)
    (g : Guest) (dry rx db tr vz : Bool)
    (h : (st.xml_phase env g dry rx db tr vz).autostart_attempted = true) :
    (st.xml_phase env g dry rx db tr vz).domain_created.isSome = true := by
  unfold Installer.xml_phase at h ⊢
  generalize st.build_xml g env.render = bx at h ⊢
  obtain ⟨r, st2, g2⟩ := bx
  cases r with
  | error e => simp_all
  | ok xmls => exact finish_install_attempted_created _ _ _ _ _ _ _ _ _ _ h

/-! # Claim theorems -/

/-- Claim C8: `set_install_defaults` is idempotent under the
one-shot `_defaults_are_set` flag: for every guest and every
external default-population hook, the installer/guest state after
`n + 1` calls equals the state after one call, so a second call adds
no second install CDROM device and recomputes no boot order. -/
theorem C8_set_install_defaults_idempotent
    (f : Guest → Guest) (st : Installer) (guest : Guest) (n : Nat) :
    (sidStep f)^[n + 1] (st, guest) = sidStep f (st, guest) := by
  induction n with
  | zero => rfl
  | succ n ih =>
    rw [Function.iterate_succ_apply', ih, sidStep_fixpoint]

/-- Claim C8 witness: three calls on a concrete cdrom-backed
installer leave exactly the state of one call. -/
theorem C8_witness :
    (sidStep id)^[3] (cdromInstaller, guestWithCdrom) =
      sidStep id (cdromInstaller, guestWithCdrom) :=
  C8_set_install_defaults_idempotent id cdromInstaller guestWithCdrom 2

/-- Claim C5: `cleanup_created_disks` processes exactly the disks
whose storage this install created (those with
`storage_was_created`), in order, leaving pre-existing disks
untouched; a per-disk deletion failure is recorded as a logged step,
never raised, and the remaining created disks are still
processed — for every behaviour of the external deletion call. -/
theorem C5_cleanup_created_disks
    (delete_disk : DeviceDisk → Except String Unit) (guest : Guest) :
    ((Installer.cleanup_created_disks delete_disk guest).map CleanupStep.disk =
      Installer.get_created_disks guest) ∧
    (∀ s ∈ Installer.cleanup_created_disks delete_disk guest,
      (CleanupStep.disk s).storage_was_created = true) ∧
    (∀ d ∈ guest.disks, d.storage_was_created = false →
      ∀ s ∈ Installer.cleanup_created_disks delete_disk guest,
        CleanupStep.disk s ≠ d) := by
  have hmap : (Installer.cleanup_created_disks delete_disk guest).map CleanupStep.disk =
      Installer.get_created_disks guest := by
    unfold Installer.cleanup_created_disks
    exact cleanup_map_disk delete_disk _
  have hcreated : ∀ s ∈ Installer.cleanup_created_disks delete_disk guest,
      (CleanupStep.disk s).storage_was_created = true := by
    intro s hs
    have hdm : CleanupStep.disk s ∈ Installer.get_created_disks guest := by
      rw [← hmap]
      exact List.mem_map_of_mem CleanupStep.disk hs
    exact (List.mem_filter.mp hdm).2
  refine ⟨hmap, hcreated, ?_⟩
  intro d _ hdold s hs heq
  have := hcreated s hs
  rw [heq, hdold] at this
  exact Bool.false_ne_true this

/-- Claim C5 witness: on a guest with one pre-existing disk and two
created disks, with the deletion of the first created disk failing,
exactly the two created disks are processed. -/
theorem C5_witness :
    (Installer.cleanup_created_disks failDelete mixedGuest).map CleanupStep.disk =
      [createdDiskA, createdDiskB] := by
  have h := (C5_cleanup_created_disks failDelete mixedGuest).1
  rw [h]
  rfl

/-- Claim C6: constructing an Installer with a location kernel but
no location initrd (or vice versa), or with the pair supplied but no
location, fails eagerly with the validation error — for every
behaviour of the media-access hooks, i.e. before any I/O or media
access can be performed. -/
theorem C6_init_validation
    (validate_path : String → Except String String)
    (mkTreeMedia : String → Option String → Option String → Except String TreeMedia)
    (cdrom location install_bootdev location_kernel location_initrd : Option String)
    (hkernelinitrd : truthy location_kernel = true ∨ truthy location_initrd = true) :
    (truthy location = false →
      Installer.init validate_path mkTreeMedia cdrom location install_bootdev
        location_kernel location_initrd = .error errNoLocation) ∧
    (truthy location = true →
      ¬ (truthy location_kernel = true ∧ truthy location_initrd = true) →
      Installer.init validate_path mkTreeMedia cdrom location install_bootdev
        location_kernel location_initrd = .error errNotPair) := by
  constructor
  · intro hloc
    unfold Installer.init
    simp [hloc]
    rcases hkernelinitrd with h | h <;> simp [h]
  · intro hloc hpair
    unfold Installer.init
    have : ¬ (truthy location_kernel ∧ truthy location_initrd) := by
      simpa using hpair
    simp [hloc, this]
    rcases hkernelinitrd with h | h <;> simp [h]

/-- Claim C6 witness: a kernel with no location fails with the
location error, and a kernel with a location but no initrd fails
with the pairing error, under fully permissive media hooks. -/
theorem C6_witness :
    (Installer.init okValidatePath okMkTreeMedia none none none
      (some "vmlinuz") none = .error errNoLocation) ∧
    (Installer.init okValidatePath okMkTreeMedia none (some "http://host/tree") none
      (some "vmlinuz") none = .error errNotPair) := by
  constructor
  · exact (C6_init_validation okValidatePath okMkTreeMedia none none none
      (some "vmlinuz") none (Or.inl (by decide))).1 (by decide)
  · exact (C6_init_validation okValidatePath okMkTreeMedia none (some "http://host/tree")
      none (some "vmlinuz") none (Or.inl (by decide))).2 (by decide) (by decide)

/-- Claim C2: the computed boot order begins with the requested boot
device; when the guest has at least one DISK-type disk device, "hd"
is appended as a second entry unless the requested device is already
"hd"; with no DISK-type device the order is the requested device
alone; concretely, one hard disk with requested device cdrom yields
[cdrom, hd] and no disks with requested device network yields
[network] only. -/
theorem C2_build_boot_order :
    (∀ (guest : Guest) (bootdev : String),
      (Installer.build_boot_order guest bootdev).head? = some bootdev) ∧
    (∀ (guest : Guest) (bootdev : String),
      (∃ d ∈ guest.disks, d.device = DEVICE_DISK) →
      Installer.build_boot_order guest bootdev =
        if bootdev = BOOT_DEVICE_HARDDISK then [bootdev]
        else [bootdev, BOOT_DEVICE_HARDDISK]) ∧
    (∀ (guest : Guest) (bootdev : String),
      (∀ d ∈ guest.disks, d.device ≠ DEVICE_DISK) →
      Installer.build_boot_order guest bootdev = [bootdev]) ∧
    Installer.build_boot_order sampleGuestOneDisk "cdrom" = ["cdrom", "hd"] ∧
    Installer.build_boot_order sampleGuestNoDisks "network" = ["network"] := by
  refine ⟨?_, ?_, ?_, by decide, by decide⟩
  · intro guest bootdev
    unfold Installer.build_boot_order
    cases h : guest.disks.find? (fun d => d.device = DEVICE_DISK) with
    | none => simp
    | some d0 => by_cases hb : BOOT_DEVICE_HARDDISK = bootdev <;> simp [hb]
  · intro guest bootdev hex
    unfold Installer.build_boot_order
    cases h : guest.disks.find? (fun d => d.device = DEVICE_DISK) with
    | none =>
      obtain ⟨d, hd, hdev⟩ := hex
      have hnone := List.find?_eq_none.mp h d hd
      simp [hdev] at hnone
    | some d0 =>
      by_cases hb : bootdev = BOOT_DEVICE_HARDDISK
      · simp [hb]
      · have : ¬ (BOOT_DEVICE_HARDDISK = bootdev) := fun hh => hb hh.symm
        simp [hb, this]
  · intro guest bootdev hall
    have h : guest.disks.find? (fun d => d.device = DEVICE_DISK) = none := by
      rw [List.find?_eq_none]
      intro d hd
      simpa using hall d hd
    unfold Installer.build_boot_order
    simp [h]

/-- Claim C2 witness: the two concrete boot orders, obtained through
the general conjuncts. -/
theorem C2_witness :
    Installer.build_boot_order sampleGuestOneDisk "cdrom" = ["cdrom", "hd"] ∧
    Installer.build_boot_order sampleGuestNoDisks "network" = ["network"] := by
  constructor
  · have h := C2_build_boot_order.2.1 sampleGuestOneDisk "cdrom"
      ⟨sampleHardDisk, by decide, by decide⟩
    rw [if_neg (by decide)] at h
    exact h
  · exact C2_build_boot_order.2.2.1 sampleGuestNoDisks "network" (by decide)

/-- Claim C7: the autostart flag is applied only once the domain
object exists — a `start_install` run that attempted the autostart
setter always holds a created domain — and a setter failure
classified as lacking autostart support is tolerated while any other
setter failure propagates. -/
theorem C7_autostart (δ : Type) :
    (∀ (is_nosupport : String → Bool) (e : String), is_nosupport e = true →
      Installer.flag_autostart is_nosupport (.error e) = .ok ()) ∧
    (∀ (is_nosupport : String → Bool) (e : String), is_nosupport e = false →
      Installer.flag_autostart is_nosupport (.error e) = .error e) ∧
    (∀ (env : StartEnv δ) (st : Installer) (guest : Guest)
        (dry return_xml doboot transient guest_type_vz : Bool),
      (Installer.start_install env st guest dry return_xml doboot transient
        guest_type_vz).autostart_attempted = true →
      (Installer.start_install env st guest dry return_xml doboot transient
        guest_type_vz).domain_created.isSome = true) := by
  refine ⟨?_, ?_, ?_⟩
  · intro p e hp
    unfold Installer.flag_autostart
    simp [hp]
  · intro p e hp
    unfold Installer.flag_autostart
    simp [hp]
  · intro env st guest dry return_xml doboot transient guest_type_vz
    unfold Installer.start_install
    intro h
    repeat' split at h
    all_goals first
      | exact xml_phase_attempted_created _ _ _ _ _ _ _ _ h
      | simp_all

/-- Claim C7 witness: an autostart failure classified as lacking
support is tolerated, and an unclassified failure propagates. -/
theorem C7_witness :
    Installer.flag_autostart (fun _ => true)
      (.error "this function is not supported by the connection driver") = .ok () ∧
    Installer.flag_autostart (fun _ => false)
      (.error "internal error") = .error "internal error" :=
  ⟨(C7_autostart Nat).1 (fun _ => true)
      "this function is not supported by the connection driver" rfl,
   (C7_autostart Nat).2.1 (fun _ => false) "internal error" rfl⟩

/-- Claim C3: in the vz define-then-start fallback, when the initial
domain.create after defineXML fails, an undefine of the just-defined
domain is attempted, any failure of that undefine is swallowed
(the undefine behaviour of the connection is universally quantified and
never affects the result), and the original create failure is the
exception that propagates. -/
theorem C3_vz_fallback (δ : Type) (ops : ConnOps δ) (install_xml : Option String)
    (final_xml : String) (d : δ) (e : String)
    (hdef : ops.defineXML (pyOr install_xml final_xml) = .ok d)
    (hcreate : ops.domain_create d = .error e) :
    (Installer.manual_transient_create ops install_xml final_xml true).1 = .error e ∧
    VzAction.undefineDomain (ops.domain_undefine d).isOk ∈
      (Installer.manual_transient_create ops install_xml final_xml true).2 := by
  unfold Installer.manual_transient_create
  rw [hdef]
  simp [hcreate]

/-- Claim C3 witness: on a connection whose boot fails and whose
undefine also fails, the boot failure is the propagated error and
the failed undefine was attempted. -/
theorem C3_witness :
    (Installer.manual_transient_create vzFailConn (some "installxml") "finalxml" true).1 =
      .error "internal error: failed to start domain" ∧
    VzAction.undefineDomain false ∈
      (Installer.manual_transient_create vzFailConn (some "installxml") "finalxml" true).2 := by
  have h := C3_vz_fallback Nat vzFailConn (some "installxml") "finalxml" 1
    "internal error: failed to start domain" rfl rfl
  exact ⟨h.1, h.2⟩

/-- The insertion loop of `_add_install_cdrom_device` places the new
device immediately before the first CDROM disk when one exists, and
at the end of the list otherwise. -/
theorem insertInstallCdrom_spec (dev : DeviceDisk) : ∀ l : List DeviceDisk,
    insertInstallCdrom dev l =
      if l.any (fun d => d.is_cdrom) then
        l.takeWhile (fun d => !d.is_cdrom) ++ dev :: l.dropWhile (fun d => !d.is_cdrom)
      else l ++ [dev] := by
  intro l
  induction l with
  | nil => rfl
  | cons d ds ih =>
    by_cases hd : d.is_cdrom = true
    · simp [insertInstallCdrom, hd, List.takeWhile_cons, List.dropWhile_cons]
    · simp only [Bool.not_eq_true] at hd
      simp only [insertInstallCdrom, hd, Bool.false_eq_true, if_false, ih,
        List.any_cons, Bool.false_or, List.takeWhile_cons, List.dropWhile_cons,
        Bool.not_false, if_true]
      split <;> simp

/-- Claim C10: when the install media resolves to a cdrom path and
no install CDROM device exists yet, the new device is inserted
immediately before the first existing CDROM disk of the guest
device list, or appended at the end when the guest has no CDROM
disk; the device is recorded one-shot, and once recorded, repeated
calls leave installer and guest unchanged. -/
theorem C10_add_install_cdrom (st : Installer) (guest : Guest)
    (hnone : st.install_cdrom_device = none)
    (hpath : truthy st.cdrom_path = true) :
    (guest.disks.any (fun d => d.is_cdrom) = true →
      (st.add_install_cdrom_device guest).2.disks =
        guest.disks.takeWhile (fun d => !d.is_cdrom) ++
          st.install_cdrom_dev_of :: guest.disks.dropWhile (fun d => !d.is_cdrom)) ∧
    (guest.disks.any (fun d => d.is_cdrom) = false →
      (st.add_install_cdrom_device guest).2.disks =
        guest.disks ++ [st.install_cdrom_dev_of]) ∧
    ((st.add_install_cdrom_device guest).1.install_cdrom_device =
      some st.install_cdrom_dev_of) ∧
    (∀ (st2 : Installer) (g2 : Guest), st2.install_cdrom_device.isSome = true →
      Installer.add_install_cdrom_device st2 g2 = (st2, g2)) ∧
    (Installer.add_install_cdrom_device (st.add_install_cdrom_device guest).1
      (st.add_install_cdrom_device guest).2 = st.add_install_cdrom_device guest) := by
  have hadd : st.add_install_cdrom_device guest =
      ({ st with install_cdrom_device := some st.install_cdrom_dev_of },
       { guest with disks := insertInstallCdrom st.install_cdrom_dev_of guest.disks }) := by
    unfold Installer.add_install_cdrom_device
    simp [hnone, hpath]
  have honce : ∀ (st2 : Installer) (g2 : Guest), st2.install_cdrom_device.isSome = true →
      Installer.add_install_cdrom_device st2 g2 = (st2, g2) := by
    intro st2 g2 h2
    unfold Installer.add_install_cdrom_device
    simp [h2]
  refine ⟨?_, ?_, ?_, honce, ?_⟩
  · intro hany
    rw [hadd]
    simp [insertInstallCdrom_spec, hany]
  · intro hnocd
    rw [hadd]
    simp [insertInstallCdrom_spec, hnocd]
  · rw [hadd]
  · rw [hadd]
    exact honce _ _ rfl

/-- Claim C10 witness: on a guest holding a hard disk followed by a
CDROM disk, the install CDROM device lands between them, and a
repeated call changes nothing. -/
theorem C10_witness :
    ((cdromInstaller.add_install_cdrom_device guestWithCdrom).2.disks =
      [sampleHardDisk, installIsoDev, sampleCdromDisk]) ∧
    (Installer.add_install_cdrom_device
        (cdromInstaller.add_install_cdrom_device guestWithCdrom).1
        (cdromInstaller.add_install_cdrom_device guestWithCdrom).2 =
      cdromInstaller.add_install_cdrom_device guestWithCdrom) := by
  have h := C10_add_install_cdrom cdromInstaller guestWithCdrom rfl (by decide)
  refine ⟨?_, h.2.2.2.2⟩
  have h1 := h.1 (by decide)
  rw [h1]
  decide

/-- The retry loop never makes more attempts than the fuel allows. -/
theorem storeForDistroAux_attempts_le (attempt : Nat → Except String σ) :
    ∀ (fuel made slept : Nat),
    (storeForDistroAux attempt fuel made slept).attempts ≤ made + fuel := by
  intro fuel
  induction fuel with
  | zero =>
    intro made slept
    simp [storeForDistroAux]
  | succ n ih =>
    intro made slept
    simp only [storeForDistroAux]
    cases h : attempt made with
    | ok s => simp [h]
    | error e =>
      by_cases h5 : is502 e = true
      · simp only [h, h5, if_true]
        calc (storeForDistroAux attempt n (made + 1) (slept + 500)).attempts
            ≤ made + 1 + n := ih (made + 1) (slept + 500)
          _ ≤ made + (n + 1) := by omega
      · simp [h, h5]

/-- If the first `j` attempts fail with proxy errors and attempt `j`
fails with anything else, the loop stops right there with the latter
error, after `j` sleeps. -/
theorem storeForDistroAux_first_non502 (attempt : Nat → Except String σ) :
    ∀ (j fuel made slept : Nat), j < fuel →
    (∀ k, k < j → ∃ e2, attempt (made + k) = .error e2 ∧ is502 e2 = true) →
    ∀ e, attempt (made + j) = .error e → is502 e = false →
    storeForDistroAux attempt fuel made slept =
      ⟨.error e, made + j + 1, slept + 500 * j⟩ := by
  intro j
  induction j with
  | zero =>
    intro fuel made slept hj hpre e he h5
    obtain ⟨fuel2, rfl⟩ : ∃ m, fuel = m + 1 := ⟨fuel - 1, by omega⟩
    rw [Nat.add_zero] at he
    simp only [storeForDistroAux, he, h5, Bool.false_eq_true, if_false]
    simp only [RetryOut.mk.injEq]
    refine ⟨?_, ?_, ?_⟩ <;> first
      | trivial
      | omega
  | succ j ih =>
    intro fuel made slept hj hpre e he h5
    obtain ⟨fuel2, rfl⟩ : ∃ m, fuel = m + 1 := ⟨fuel - 1, by omega⟩
    obtain ⟨e0, he0, h50⟩ := hpre 0 (Nat.succ_pos j)
    rw [Nat.add_zero] at he0
    simp only [storeForDistroAux, he0, h50, if_true]
    have hpre2 : ∀ k, k < j → ∃ e2, attempt (made + 1 + k) = .error e2 ∧ is502 e2 = true := by
      intro k hk
      obtain ⟨e2, he2, h52⟩ := hpre (k + 1) (Nat.succ_lt_succ hk)
      refine ⟨e2, ?_, h52⟩
      have : made + 1 + k = made + (k + 1) := by omega
      rw [this]
      exact he2
    have he2 : attempt (made + 1 + j) = .error e := by
      have : made + 1 + j = made + (j + 1) := by omega
      rw [this]
      exact he
    have := ih fuel2 (made + 1) (slept + 500) (by omega) hpre2 e he2 h5
    rw [this]
    simp only [RetryOut.mk.injEq]
    refine ⟨?_, ?_, ?_⟩ <;> first
      | trivial
      | omega

/-- If every attempt the fuel allows fails with a proxy error, the
loop exhausts its fuel, sleeping after each failure, and ends in the
bare re-raise. -/
theorem storeForDistroAux_all502 (attempt : Nat → Except String σ) :
    ∀ (fuel made slept : Nat),
    (∀ k, k < fuel → ∃ e, attempt (made + k) = .error e ∧ is502 e = true) →
    storeForDistroAux attempt fuel made slept =
      ⟨.error "RuntimeError: No active exception to re-raise",
        made + fuel, slept + 500 * fuel⟩ := by
  intro fuel
  induction fuel with
  | zero =>
    intro made slept hall
    simp [storeForDistroAux]
  | succ n ih =>
    intro made slept hall
    obtain ⟨e0, he0, h50⟩ := hall 0 (Nat.succ_pos n)
    rw [Nat.add_zero] at he0
    simp only [storeForDistroAux, he0, h50, if_true]
    have hall2 : ∀ k, k < n → ∃ e, attempt (made + 1 + k) = .error e ∧ is502 e = true := by
      intro k hk
      obtain ⟨e2, he2, h52⟩ := hall (k + 1) (Nat.succ_lt_succ hk)
      refine ⟨e2, ?_, h52⟩
      have : made + 1 + k = made + (k + 1) := by omega
      rw [this]
      exact he2
    rw [ih (made + 1) (slept + 500) hall2]
    simp only [RetryOut.mk.injEq]
    refine ⟨?_, ?_, ?_⟩ <;> first
      | trivial
      | omega

/-- Claim C4: `_storeForDistro` makes at most 10 attempts; when the
first `j` attempts fail with proxy-gateway errors (message
containing "502") and attempt `j` fails with any other error, that
error propagates at once — one attempt beyond the proxy failures,
no further retry, and no delay beyond the 500ms slept after each
proxy failure; a proxy failure followed by a success is retried
after a single 500ms sleep; ten straight proxy failures exhaust the
bound with an error. -/
theorem C4_detection_retry (σ : Type) (attempt : Nat → Except String σ) :
    ((storeForDistro attempt).attempts ≤ 10) ∧
    (∀ (j : Nat) (e : String), j < 10 →
      (∀ k, k < j → ∃ e2, attempt k = .error e2 ∧ is502 e2 = true) →
      attempt j = .error e → is502 e = false →
      storeForDistro attempt = ⟨.error e, j + 1, 500 * j⟩) ∧
    (∀ (e : String) (s : σ), attempt 0 = .error e → is502 e = true →
      attempt 1 = .ok s → storeForDistro attempt = ⟨.ok s, 2, 500⟩) ∧
    ((∀ k, k < 10 → ∃ e, attempt k = .error e ∧ is502 e = true) →
      (storeForDistro attempt).attempts = 10 ∧
      (storeForDistro attempt).slept_ms = 5000 ∧
      ∃ m, (storeForDistro attempt).result = .error m) := by
  refine ⟨?_, ?_, ?_, ?_⟩
  · have := storeForDistroAux_attempts_le attempt 10 0 0
    simpa [storeForDistro] using this
  · intro j e hj hpre he h5
    have := storeForDistroAux_first_non502 attempt j 10 0 0 hj
      (by intro k hk; simpa using hpre k hk) e (by simpa using he) h5
    simpa [storeForDistro] using this
  · intro e s h0 h5 h1
    unfold storeForDistro
    simp only [storeForDistroAux, h0, h5, if_true, h1]
  · intro hall
    have h10 := storeForDistroAux_all502 attempt 10 0 0
      (by intro k hk; simpa using hall k hk)
    unfold storeForDistro
    rw [h10]
    exact ⟨rfl, rfl, _, rfl⟩

/-- Claim C4 witness: one proxy-gateway failure followed by a
success yields the value after exactly two attempts and one 500ms
sleep. -/
theorem C4_witness :
    storeForDistro proxyThenOkAttempt = ⟨.ok 7, 2, 500⟩ :=
  (C4_detection_retry Nat proxyThenOkAttempt).2.2.1
    "HTTP Error 502: Bad Gateway" 7 rfl (by decide) rfl

/-- A substring of the right part of an append is a substring of the
whole. -/
theorem containsSub_append_left (a b needle : String)
    (h : containsSub b needle = true) : containsSub (a ++ b) needle = true := by
  unfold containsSub at h ⊢
  rw [List.any_eq_true] at h
  obtain ⟨i, hi, hp⟩ := h
  rw [List.mem_range] at hi
  rw [List.any_eq_true]
  have htl : (a ++ b).toList = a.toList ++ b.toList := by
    simp [String.toList]
  refine ⟨a.toList.length + i, ?_, ?_⟩
  · rw [List.mem_range]
    have : (a ++ b).toList.length = a.toList.length + b.toList.length := by
      rw [htl, List.length_append]
    omega
  · rw [htl, List.drop_append]
    exact hp

set_option maxRecDepth 4096 in
/-- Claim C9: detection against a location no distro family matches
(such as an unreachable or non-existent URL) fails, through the test
harness retry wrapper, with a detection error whose message contains
the user-facing hint substring "maybe you mistyped"; the failure is
not retried since it is not a proxy error. -/
theorem C9_bad_url_detection (σ : Type) (location : String)
    (h502 : is502 (detection_error_message location) = false) :
    (storeForDistro (fun _ => getDistroStore (none : Option σ) location)).result =
      .error (detection_error_message location) ∧
    containsSub (detection_error_message location) "maybe you mistyped" = true ∧
    (storeForDistro (fun _ => getDistroStore (none : Option σ) location)).attempts = 1 := by
  have hrun : storeForDistro (fun _ => getDistroStore (none : Option σ) location) =
      ⟨.error (detection_error_message location), 1, 0⟩ := by
    unfold storeForDistro
    simp only [storeForDistroAux, getDistroStore, h502, Bool.false_eq_true, if_false]
  refine ⟨by rw [hrun], ?_, by rw [hrun]⟩
  unfold detection_error_message
  apply containsSub_append_left
  decide

set_option maxRecDepth 8192 in
/-- Claim C9 witness: the unreachable URL of the conformance test
yields the hinted detection error on the first attempt. -/
theorem C9_witness :
    (storeForDistro (fun _ => getDistroStore (none : Option Nat) badURL)).result =
      .error (detection_error_message badURL) ∧
    containsSub (detection_error_message badURL) "maybe you mistyped" = true := by
  have h := C9_bad_url_detection Nat badURL (by decide)
  exact ⟨h.1, h.2.1⟩

/-- Adding the install CDROM device touches only the device list,
never the os boot block or the reboot policy. -/
theorem add_install_cdrom_device_os (st : Installer) (g : Guest) :
    (st.add_install_cdrom_device g).2.os = g.os ∧
    (st.add_install_cdrom_device g).2.on_reboot = g.on_reboot := by
  unfold Installer.add_install_cdrom_device
  split
  · exact ⟨rfl, rfl⟩
  · split
    · exact ⟨rfl, rfl⟩
    · exact ⟨rfl, rfl⟩

/-- On a guest with a pre-existing boot order, `set_install_defaults`
leaves the five boot-configuration fields unchanged, for every
default-population hook that leaves them unchanged. -/
theorem set_install_defaults_snapshot (f : Guest → Guest) (st : Installer) (g : Guest)
    (hb : g.os.bootorder ≠ [])
    (hf : ∀ x, Installer.prepare_get_install_xml (f x) =
      Installer.prepare_get_install_xml x) :
    Installer.prepare_get_install_xml (Installer.set_install_defaults f st g).2 =
      Installer.prepare_get_install_xml g := by
  unfold Installer.set_install_defaults
  by_cases hflag : st.defaults_are_set = true
  · simp [hflag]
  · simp only [Bool.not_eq_true] at hflag
    simp only [hflag, Bool.false_eq_true, if_false]
    have hos := (add_install_cdrom_device_os st g).1
    have hrb := (add_install_cdrom_device_os st g).2
    generalize hadd : st.add_install_cdrom_device g = p at hos hrb ⊢
    obtain ⟨st1, g1⟩ := p
    rw [hf]
    split
    · next hcond =>
      exfalso
      apply hb
      rw [← hos]
      exact hcond.1
    · unfold Installer.prepare_get_install_xml
      rw [hos, hrb]

/-- Writing the snapshot back restores exactly the snapshot. -/
theorem prepare_finish (g : Guest) (data : OsSnapshot) :
    Installer.prepare_get_install_xml (Installer.finish_get_install_xml g data) =
      data := rfl

/-- `_get_install_xml` restores the snapshotted five fields on every
exit path, render success or failure. -/
theorem get_install_xml_snapshot (st : Installer) (g : Guest)
    (render : Guest → Except String String) :
    Installer.prepare_get_install_xml (st.get_install_xml g render).2.2 =
      Installer.prepare_get_install_xml g :=
  prepare_finish _ _

/-- `_build_xml` leaves the five boot-configuration fields of the
guest unchanged. -/
theorem build_xml_snapshot (st : Installer) (guest : Guest)
    (render : Guest → Except String String) :
    Installer.prepare_get_install_xml (st.build_xml guest render).2.2 =
      Installer.prepare_get_install_xml guest := by
  unfold Installer.build_xml
  split
  · have hgi := get_install_xml_snapshot st guest render
    generalize hg : st.get_install_xml guest render = gi at hgi ⊢
    obtain ⟨r, st1, g1⟩ := gi
    dsimp only at hgi ⊢
    cases r with
    | error e => simpa using hgi
    | ok ixml =>
      cases hr : render g1 with
      | error e => simpa using hgi
      | ok fxml => simpa using hgi
  · cases hr : render guest with
    | error e => simp [hr]
    | ok fxml => simp [hr]

/-- The final stage of `start_install` returns the guest it was
given, unchanged. -/
theorem finish_install_guest (env : StartEnv δ) (st : Installer) (g : Guest)
    (ix : Option String) (fx : String) (dry rx db tr vz : Bool) :
    (Installer.finish_install env st g ix fx dry rx db tr vz).guest = g := by
  unfold Installer.finish_install
  repeat' split
  all_goals rfl

/-- The XML phase of `start_install` leaves the five
boot-configuration fields of the guest unchanged. -/
theorem xml_phase_snapshot (st : Installer) (env : StartEnv δ) (g : Guest)
    (dry rx db tr vz : Bool) :
    Installer.prepare_get_install_xml (st.xml_phase env g dry rx db tr vz).guest =
      Installer.prepare_get_install_xml g := by
  unfold Installer.xml_phase
  have hbx := build_xml_snapshot st g env.render
  generalize hg : st.build_xml g env.render = bx at hbx ⊢
  obtain ⟨r, st1, g1⟩ := bx
  cases r with
  | error e => simpa using hbx
  | ok xmls =>
    rw [finish_install_guest]
    simpa using hbx

/-- Claim C1: for every guest that has pre-existing bootorder,
kernel, initrd, kernel-args and on-reboot-policy values, after
`start_install` returns — normally, early for dry or return_xml, or
with an error from any stage — those five fields equal their
pre-call values (for every default-population hook that preserves
them); and the snapshot taken by `_get_install_xml` is restored on
every exit path of the install-XML rendering. -/
theorem C1_start_install_restores (δ : Type) (env : StartEnv δ)
    (st : Installer) (guest : Guest)
    (dry return_xml doboot transient guest_type_vz : Bool)
    (hb : guest.os.bootorder ≠ [])
    (hkernel : truthy guest.os.kernel = true)
    (hinitrd : truthy guest.os.initrd = true)
    (hargs : truthy guest.os.kernel_args = true)
    (hreboot : truthy guest.on_reboot = true)
    (hf : ∀ x, Installer.prepare_get_install_xml (env.set_defaults_ext x) =
      Installer.prepare_get_install_xml x) :
    Installer.prepare_get_install_xml
      (Installer.start_install env st guest dry return_xml doboot transient
        guest_type_vz).guest =
      Installer.prepare_get_install_xml guest ∧
    (∀ (st2 : Installer) (g2 : Guest) (render : Guest → Except String String),
      Installer.prepare_get_install_xml (st2.get_install_xml g2 render).2.2 =
        Installer.prepare_get_install_xml g2) := by
  refine ⟨?_, fun st2 g2 render => get_install_xml_snapshot st2 g2 render⟩
  unfold Installer.start_install
  cases hv : env.validate_name with
  | error e => rfl
  | ok u =>
    dsimp only
    have hsd := set_install_defaults_snapshot env.set_defaults_ext st guest hb hf
    generalize hsdp : Installer.set_install_defaults env.set_defaults_ext st guest = p
      at hsd ⊢
    obtain ⟨st1, g1⟩ := p
    dsimp only at hsd ⊢
    cases hpr : (if st1.treemedia.isSome = true then Except.map some env.prepare_res
        else Except.ok none) with
    | error e => exact hsd
    | ok pr =>
      dsimp only
      generalize hbs : (if dry = true then ((Except.ok () : Except String Unit), g1.disks)
          else buildStorageAll env.build_storage g1.disks) = bs
      obtain ⟨storage_r, disks2⟩ := bs
      dsimp only
      cases storage_r with
      | error e => exact hsd
      | ok _ => exact (xml_phase_snapshot _ env _ dry return_xml doboot transient
          guest_type_vz).trans hsd

/-- Claim C1 witness: a full successful run on a guest with
pre-existing bootorder, kernel, initrd, kernel args and reboot
policy leaves the five fields at their pre-call values. -/
theorem C1_witness :
    Installer.prepare_get_install_xml
      (Installer.start_install sampleEnv cdromInstaller presetGuest false false
        true false false).guest =
      Installer.prepare_get_install_xml presetGuest :=
  (C1_start_install_restores Nat sampleEnv cdromInstaller presetGuest false false
    true false false (by decide) (by decide) (by decide) (by decide) (by decide)
    (fun _ => rfl)).1
